import Mathlib

/-!
# Verification of the launchfast-cli retry/poll/download core

A shallow embedding in Lean 4 of the error-classification and control-flow
core of the `launchfast-cli` TypeScript repository:

* `startAuthFlow` / `attemptAuthRequest` (src/auth/startAuthFlow.ts),
* `pollForVerification` / `attemptPoll` (src/auth/pollForVerification.ts),
* `downloadInstaller` / `cleanupInstaller` (src/installer/downloadInstaller.ts),
* `writeNpmToken` (src/npm/writeNpmToken.ts).

Network, clock, filesystem and process-exit effects are injected as explicit
environment values (mirroring the dependency-injection style of the source);
each operation is embedded as a pure function from those environments to a
trace of observable effects (fetch count, sleep delays, printed one-shot
messages, filesystem operations) together with a final outcome
(returned value, `exit(code)`, or a thrown error).

JavaScript-specific semantics that the source relies on are modelled
explicitly: truthiness of strings and JSON values (`!data.sessionId`,
`!expectedChecksum`, `!data.token`), nullish coalescing (`??`), property
access on parsed JSON (including the `TypeError` thrown by accessing a
property of `null`), and `zod` schema validation for the auth-start response.
-/

namespace LaunchFast

/-! ## Embedded definitions -/

inductive Json where
  | str (s : String)
  | num (n : Int)
  | bool (b : Bool)
  | null
  | arr (elems : List Json)
  | obj (fields : List (String × Json))

def Json.getField : Json → String → Option Json
  | .obj fields, key => fields.lookup key
  | _, _ => none

def jsFalsy : Option Json → Bool
  | none => true
  | some .null => true
  | some (.bool false) => true
  | some (.num 0) => true
  | some (.str "") => true
  | some _ => false

def jsNullish (v : Option Json) (d : Json) : Json :=
  match v with
  | none => d
  | some .null => d
  | some x => x

def jsFalsyStr (s : Option String) : Bool :=
  match s with
  | none => true
  | some v => v == ""

inductive BodyOutcome where
  | parses (json : Json)
  | throws (message : String)

structure HttpResponse where
  status : Nat
  body : BodyOutcome

def responseOk (status : Nat) : Bool :=
  200 ≤ status && status ≤ 299

inductive FetchOutcome where
  | throws (message : String)
  | resp (r : HttpResponse)

inductive Result (T E : Type) where
  | ok (value : T)
  | err (error : E)

inductive BoundaryError where
  | network (message : String)
  | parse (message : String)
deriving DecidableEq

inductive AuthFlowError where
  | forbidden (message : String)
  | server_error (message : String)
  | transport (message : String)
  | protocol_violation (message : String)
deriving DecidableEq

def isRetryable : AuthFlowError → Bool
  | .server_error _ => true
  | .transport _ => true
  | _ => false

structure AuthStartData where
  sessionId : Option String
  error : Option String
deriving DecidableEq

def optStringField (fields : List (String × Json)) (key : String) :
    Option (Option String) :=
  match fields.lookup key with
  | none => some none
  | some (.str s) => some (some s)
  | some _ => none

def authStartSafeParse : Json → Option AuthStartData
  | .obj fields =>
    match optStringField fields "sessionId", optStringField fields "error" with
    | some sid, some er => some ⟨sid, er⟩
    | _, _ => none
  | _ => none

def attemptAuthRequest (outcome : FetchOutcome) : Result String AuthFlowError :=
  match outcome with
  | .throws message => .err (.transport message)
  | .resp r =>
    match r.body with
    | .throws message =>
      if responseOk r.status then
        .err (.protocol_violation ("Response is not valid JSON: " ++ message))
      else
        .err (.transport
          ("Server returned " ++ toString r.status ++ " with non-JSON body"))
    | .parses json =>
      match authStartSafeParse json with
      | none => .err (.protocol_violation "Invalid response schema")
      | some data =>
        if !responseOk r.status then
          if r.status == 403 then
            .err (.forbidden (data.error.getD "No purchase found for this email"))
          else
            .err (.server_error (data.error.getD "Authentication failed"))
        else if jsFalsyStr data.sessionId then
          .err (.protocol_violation
            "Server returned 200 OK but missing required sessionId")
        else
          .ok (data.sessionId.getD "")

def getBackoffDelay (attempt : Nat) : Nat :=
  2 ^ attempt * 1000

inductive AuthOutcome where
  | success (sessionId : String)
  | exited (code : Nat)
  | thrown (message : String)
deriving DecidableEq

structure AuthTrace where
  fetchCount : Nat
  sleeps : List Nat
  outcome : AuthOutcome
deriving DecidableEq

def authGo (env : Nat → FetchOutcome) (maxRetries attempt : Nat)
    (lastError : Option AuthFlowError) : Nat → AuthTrace
  | 0 =>
    match lastError with
    | none => ⟨0, [], .thrown "Invariant breach: retry loop exited without error"⟩
    | some (.transport _) => ⟨0, [], .exited 1⟩
    | some (.server_error _) => ⟨0, [], .exited 1⟩
    | some _ =>
      ⟨0, [], .thrown "Invariant breach: unexpected retryable error type after exhaustion"⟩
  | fuel + 1 =>
    match attemptAuthRequest (env attempt) with
    | .ok sessionId => ⟨1, [], .success sessionId⟩
    | .err e =>
      if isRetryable e then
        let rest := authGo env maxRetries (attempt + 1) (some e) fuel
        if attempt < maxRetries then
          ⟨rest.fetchCount + 1, getBackoffDelay attempt :: rest.sleeps, rest.outcome⟩
        else
          ⟨rest.fetchCount + 1, rest.sleeps, rest.outcome⟩
      else
        match e with
        | .forbidden _ => ⟨1, [], .exited 1⟩
        | .protocol_violation m => ⟨1, [], .thrown ("Protocol violation: " ++ m)⟩
        | _ => ⟨1, [], .thrown "Invariant breach: unhandled non-retryable error type"⟩

def startAuthFlow (env : Nat → FetchOutcome) (maxRetries : Nat) : AuthTrace :=
  authGo env maxRetries 1 none maxRetries

def AuthOutcome.isExit : AuthOutcome → Bool
  | .exited _ => true
  | _ => false

inductive PollResult where
  | verified (token : Json)
  | expired
  | pending
  | boundary_error (error : BoundaryError)
  | http_error (status : Nat)
  | invariant_violation (message : String)

inductive PollStep where
  | result (r : PollResult)
  | jsThrown (message : String)

def Json.isNull : Json → Bool
  | .null => true
  | _ => false

def statusIs (j : Json) (lit : String) : Bool :=
  match j.getField "status" with
  | some (.str v) => v == lit
  | _ => false

def attemptPoll (outcome : FetchOutcome) : PollStep :=
  match outcome with
  | .throws message => .result (.boundary_error (.network message))
  | .resp r =>
    match r.body with
    | .throws message => .result (.boundary_error (.parse message))
    | .parses json =>
      if !responseOk r.status then
        .result (.http_error r.status)
      else if json.isNull then
        .jsThrown "TypeError: cannot read properties of null"
      else if statusIs json "verified" then
        match json.getField "token" with
        | none => .result (.invariant_violation "No token returned after verification")
        | some t =>
          if jsFalsy (some t) then
            .result (.invariant_violation "No token returned after verification")
          else
            .result (.verified t)
      else if statusIs json "expired" then
        .result .expired
      else
        .result .pending

def isTransientFailure : PollResult → Bool
  | .boundary_error _ => true
  | .http_error _ => true
  | _ => false

def getTransientErrorMessage : PollResult → String
  | .boundary_error _ => "Network unstable — retrying..."
  | .http_error status => "Server error (" ++ toString status ++ ") — retrying..."
  | _ => "Temporary error — retrying..."

inductive PollEvent where
  | warned (message : String)
  | restored
  | slept (ms : Nat)
  | dot
  | finalizing

inductive PollOutcome where
  | returned (token : Json)
  | exited (code : Nat)
  | thrown (message : String)
  | outOfFuel

structure PollTrace where
  fetchCount : Nat
  events : List PollEvent
  outcome : PollOutcome

structure PollConfig where
  env : Nat → FetchOutcome
  now : Nat → Int
  pollIntervalMs : Nat
  pollTimeoutMs : Int

def pollGo (cfg : PollConfig) : (i consecutiveErrors : Nat) →
    (warned prevPending : Bool) → Nat → PollTrace
  | _, _, _, _, 0 => ⟨0, [], .outOfFuel⟩
  | i, consecutiveErrors, warned, prevPending, fuel + 1 =>
    if cfg.now (i + 1) - cfg.now 0 < cfg.pollTimeoutMs then
      match attemptPoll (cfg.env i) with
      | .jsThrown m => ⟨1, [], .thrown m⟩
      | .result r =>
        if isTransientFailure r then
          let c := consecutiveErrors + 1
          let warnNow := 3 ≤ c && !warned
          let evs :=
            if warnNow then
              [.warned (getTransientErrorMessage r), .slept cfg.pollIntervalMs]
            else
              [PollEvent.slept cfg.pollIntervalMs]
          let rest := pollGo cfg (i + 1) c (warned || warnNow) prevPending fuel
          ⟨rest.fetchCount + 1, evs ++ rest.events, rest.outcome⟩
        else
          let restoredEvs := if warned then [PollEvent.restored] else []
          match r with
          | .verified t =>
            ⟨1, restoredEvs ++ if prevPending then [.finalizing] else [],
              .returned t⟩
          | .expired => ⟨1, restoredEvs, .exited 1⟩
          | .invariant_violation m => ⟨1, restoredEvs, .thrown m⟩
          | _ =>
            let rest := pollGo cfg (i + 1) 0 false true fuel
            ⟨rest.fetchCount + 1,
              restoredEvs ++ [.dot, .slept cfg.pollIntervalMs] ++ rest.events,
              rest.outcome⟩
    else
      ⟨0, [], .exited 1⟩

def pollForVerification (cfg : PollConfig) (fuel : Nat) : PollTrace :=
  pollGo cfg 0 0 false false fuel

def countWarned (evs : List PollEvent) : Nat :=
  evs.countP fun e => match e with | .warned _ => true | _ => false

def countRestored (evs : List PollEvent) : Nat :=
  evs.countP fun e => match e with | .restored => true | _ => false

def pollFailEvents (intervalMs : Nat) (warnMsg : String) (m : Nat) :
    List PollEvent :=
  [.slept intervalMs, .slept intervalMs, .warned warnMsg, .slept intervalMs] ++
    List.replicate (m - 3) (.slept intervalMs)

def pollFlakyEnv : Nat → FetchOutcome := fun i =>
  if i < 3 then .throws "ECONNRESET"
  else .resp ⟨200, .parses (.obj [("status", .str "pending")])⟩

def pollFlakyCfg : PollConfig := ⟨pollFlakyEnv, fun _ => 0, 3000, 600000⟩

inductive DownloadResult where
  | success (installerPath : String) (version : String)
  | auth_error (message : Json)
  | not_found (message : Json)
  | checksum_mismatch (expected : String) (actual : String)
  | boundary_error (error : BoundaryError)

structure DlResponse where
  status : Nat
  checksumHeader : Option String
  versionHeader : Option String
  jsonBody : BodyOutcome
  bodyBytes : Except String (List Nat)

inductive DlFetch where
  | throws (message : String)
  | resp (r : DlResponse)

inductive FsEvent where
  | mkdirRec (path : String)
  | wroteFile (path : String)
  | extracted (file : String) (cwd : String)
  | removedDir (path : String)
deriving DecidableEq

structure DlFsEnv where
  tmpdir : String
  nowMs : Nat
  mkdirResult : Except String Unit
  writeFileResult : Except String Unit
  extractResult : Except String Unit

def scratchDir (fs : DlFsEnv) : String :=
  fs.tmpdir ++ "/launchfast-installer-" ++ toString fs.nowMs

def downloadInstaller (sha256Hex : List Nat → String) (fs : DlFsEnv)
    (outcome : DlFetch) : List FsEvent × DownloadResult :=
  match outcome with
  | .throws message => ([], .boundary_error (.network message))
  | .resp r =>
    if !responseOk r.status then
      if r.status == 400 || r.status == 403 || r.status == 404 then
        match r.jsonBody with
        | .throws _ =>
          ([], .auth_error (.str ("Server error: " ++ toString r.status)))
        | .parses j =>
          if j.isNull then
            -- reading `data.error` on null throws inside the try, so the
            -- catch produces the generic message
            ([], .auth_error (.str ("Server error: " ++ toString r.status)))
          else if r.status == 403 then
            ([], .auth_error
              (jsNullish (j.getField "error") (.str "Session not verified or expired")))
          else if r.status == 404 then
            ([], .not_found
              (jsNullish (j.getField "error") (.str "No installer package available")))
          else
            ([], .auth_error (jsNullish (j.getField "error") (.str "Invalid request")))
      else
        ([], .boundary_error (.network ("HTTP " ++ toString r.status)))
    else
      let version := r.versionHeader.getD "unknown"
      match r.checksumHeader with
      | none => ([], .boundary_error (.parse "Missing checksum header"))
      | some expectedChecksum =>
        if expectedChecksum == "" then
          -- `if (!expectedChecksum)`: the empty header value is falsy
          ([], .boundary_error (.parse "Missing checksum header"))
        else
          match r.bodyBytes with
          | .error message => ([], .boundary_error (.parse message))
          | .ok tarballBuffer =>
            let actualChecksum := sha256Hex tarballBuffer
            if actualChecksum != expectedChecksum then
              ([], .checksum_mismatch expectedChecksum actualChecksum)
            else
              let tempDir := scratchDir fs
              match fs.mkdirResult with
              | .error message =>
                ([], .boundary_error
                  (.parse ("Failed to create temp directory: " ++ message)))
              | .ok _ =>
                let tarballPath := tempDir ++ "/package.tgz"
                match fs.writeFileResult with
                | .error message =>
                  ([.mkdirRec tempDir, .removedDir tempDir],
                    .boundary_error
                      (.parse ("Failed to extract package: " ++ message)))
                | .ok _ =>
                  match fs.extractResult with
                  | .error message =>
                    ([.mkdirRec tempDir, .wroteFile tarballPath,
                        .removedDir tempDir],
                      .boundary_error
                        (.parse ("Failed to extract package: " ++ message)))
                  | .ok _ =>
                    ([.mkdirRec tempDir, .wroteFile tarballPath,
                        .extracted tarballPath tempDir],
                      .success (tempDir ++ "/package") version)

def splitChars (sep : Char) : List Char → List (List Char)
  | [] => [[]]
  | c :: rest =>
    let r := splitChars sep rest
    if c = sep then [] :: r
    else
      match r with
      | [] => [[c]]
      | hd :: tl => (c :: hd) :: tl

def intercalateChars (sep : Char) : List (List Char) → List Char
  | [] => []
  | [x] => x
  | x :: xs => x ++ sep :: intercalateChars sep xs

def resolveParts (isAbs : Bool) :
    List (List Char) → List (List Char) → List (List Char)
  | stack, [] => stack.reverse
  | stack, part :: rest =>
    if part = [] || part = ['.'] then
      resolveParts isAbs stack rest
    else if part = ['.', '.'] then
      match stack with
      | [] =>
        if isAbs then resolveParts isAbs [] rest
        else resolveParts isAbs [['.', '.']] rest
      | top :: stack2 =>
        if top = ['.', '.'] then
          resolveParts isAbs (['.', '.'] :: top :: stack2) rest
        else resolveParts isAbs stack2 rest
    else
      resolveParts isAbs (part :: stack) rest

def joinWithParent (p : String) : String :=
  let cs := p.toList
  let isAbs : Bool := match cs with | '/' :: _ => true | _ => false
  let stack := resolveParts isAbs [] (splitChars '/' (cs ++ ['/', '.', '.']))
  let s := String.mk (intercalateChars '/' stack)
  if isAbs then "/" ++ s
  else if s = "" then "."
  else s

def leadsWith : List Char → List Char → Bool
  | [], _ => true
  | _ :: _, [] => false
  | p :: ps, c :: cs => p == c && leadsWith ps cs

def containsChars (pat : List Char) : List Char → Bool
  | [] => leadsWith pat []
  | c :: cs => leadsWith pat (c :: cs) || containsChars pat cs

def strIncludes (s pat : String) : Bool :=
  containsChars pat.toList s.toList

def cleanupInstaller (installerPath : String)
    (rmResult : Except String Unit) : List FsEvent :=
  if installerPath = "" then []
  else if !strIncludes installerPath "launchfast-installer-" then []
  else
    match rmResult with
    | .ok _ => [.removedDir (joinWithParent installerPath)]
    | .error _ => [.removedDir (joinWithParent installerPath)]

def DownloadResult.isChecksumMismatch : DownloadResult → Bool
  | .checksum_mismatch _ _ => true
  | _ => false

def DownloadResult.isNotFoundResult : DownloadResult → Bool
  | .not_found _ => true
  | _ => false

inductive NpmrcRead where
  | found (entries : List (String × String))
  | enoent
  | readError (message : String)

structure NpmRun where
  writes : List (List (String × String))
  threw : Option String

def authTokenKey : String := "//registry.npmjs.org/:_authToken"

def jsSetKey : List (String × String) → String → String → List (String × String)
  | [], key, value => [(key, value)]
  | (k, v) :: rest, key, value =>
    if k = key then (key, value) :: rest
    else (k, v) :: jsSetKey rest key value

def writeNpmToken (token : String) (read : NpmrcRead) : NpmRun :=
  match read with
  | .readError message => ⟨[], some message⟩
  | .enoent => ⟨[jsSetKey [] authTokenKey token], none⟩
  | .found entries => ⟨[jsSetKey entries authTokenKey token], none⟩

/-! ## Theorems -/

theorem authGo_all_retryable (env : Nat → FetchOutcome) (maxRetries : Nat) :
    ∀ (fuel a : Nat) (le : Option AuthFlowError),
      a + fuel = maxRetries + 1 →
      (∀ i, a ≤ i → i ≤ maxRetries →
        ∃ e, attemptAuthRequest (env i) = .err e ∧ isRetryable e = true) →
      (fuel = 0 → ∃ e, le = some e ∧ isRetryable e = true) →
      authGo env maxRetries a le fuel =
        ⟨fuel, (List.range' a (maxRetries - a)).map getBackoffDelay, .exited 1⟩ := by
  intro fuel
  induction fuel with
  | zero =>
    intro a le ha _ hle
    obtain ⟨e, rfl, hr⟩ := hle rfl
    have hrange : maxRetries - a = 0 := by omega
    cases e with
    | transport m => simp [authGo, hrange]
    | server_error m => simp [authGo, hrange]
    | forbidden m => simp [isRetryable] at hr
    | protocol_violation m => simp [isRetryable] at hr
  | succ f ih =>
    intro a le ha hfail _
    have hamax : a ≤ maxRetries := by omega
    obtain ⟨e, he, hr⟩ := hfail a le_rfl hamax
    have hrest := ih (a + 1) (some e)
      (by omega) (fun i hi hi2 => hfail i (by omega) hi2) (fun h0 => ⟨e, rfl, hr⟩)
    by_cases hlt : a < maxRetries
    · have h1 : maxRetries - a = (maxRetries - (a + 1)) + 1 := by omega
      simp [authGo, he, hr, hrest, hlt, h1, List.range']
    · have haeq : a = maxRetries := by omega
      have h0 : f = 0 := by omega
      subst h0
      have h1 : maxRetries - a = 0 := by omega
      cases e with
      | transport m => simp [authGo, he, isRetryable, hlt, h1]
      | server_error m => simp [authGo, he, isRetryable, hlt, h1]
      | forbidden m => simp [isRetryable] at hr
      | protocol_violation m => simp [isRetryable] at hr

theorem startAuthFlow_all_retryable (env : Nat → FetchOutcome) (N : Nat)
    (hN : 1 ≤ N)
    (h : ∀ i, 1 ≤ i → i ≤ N →
      ∃ e, attemptAuthRequest (env i) = .err e ∧ isRetryable e = true) :
    startAuthFlow env N =
      ⟨N, (List.range' 1 (N - 1)).map (fun i => 2 ^ i * 1000), .exited 1⟩ := by
  have hmain := authGo_all_retryable env N N 1 none (by omega) h
    (fun h0 => absurd h0 (by omega))
  rw [startAuthFlow, hmain]
  rfl

theorem startAuthFlow_all_retryable_witness :
    startAuthFlow (fun _ => .throws "ECONNREFUSED") 3 =
      ⟨3, [2000, 4000], .exited 1⟩ := by
  have hmain := startAuthFlow_all_retryable (fun _ => .throws "ECONNREFUSED") 3
    (by norm_num) (fun i _ _ => ⟨.transport "ECONNREFUSED", rfl, rfl⟩)
  rw [hmain]
  rfl

theorem startAuthFlow_403_json_cex :
    startAuthFlow (fun _ => .resp ⟨403, .parses (.arr [])⟩) 3 =
      ⟨1, [], .thrown "Protocol violation: Invalid response schema"⟩ ∧
    (startAuthFlow (fun _ => .resp ⟨403, .parses (.arr [])⟩) 3).outcome.isExit =
      false := by
  exact ⟨rfl, rfl⟩

theorem startAuthFlow_forbidden_no_retry (env : Nat → FetchOutcome) (N : Nat)
    (hN : 1 ≤ N) (r : HttpResponse) (henv : env 1 = .resp r)
    (hst : r.status = 403) (j : Json) (hbody : r.body = .parses j)
    (d : AuthStartData) (hparse : authStartSafeParse j = some d) :
    startAuthFlow env N = ⟨1, [], .exited 1⟩ := by
  obtain ⟨f, rfl⟩ : ∃ f, N = f + 1 := ⟨N - 1, by omega⟩
  have hatt : attemptAuthRequest (env 1) =
      .err (.forbidden (d.error.getD "No purchase found for this email")) := by
    rw [henv, attemptAuthRequest]
    simp [hbody, hparse, hst, responseOk]
  simp [startAuthFlow, authGo, hatt, isRetryable]

theorem startAuthFlow_forbidden_no_retry_witness :
    startAuthFlow
        (fun _ => .resp ⟨403, .parses (.obj [("error", .str "no purchase")])⟩) 3 =
      ⟨1, [], .exited 1⟩ :=
  startAuthFlow_forbidden_no_retry _ 3 (by norm_num) _ rfl rfl _ rfl
    ⟨none, some "no purchase"⟩ rfl

theorem attemptAuth_nonJson_classification :
    (∀ (r : HttpResponse) (m : String), r.body = .throws m →
      responseOk r.status = true →
      attemptAuthRequest (.resp r) =
        .err (.protocol_violation ("Response is not valid JSON: " ++ m)) ∧
      isRetryable (.protocol_violation ("Response is not valid JSON: " ++ m)) =
        false) ∧
    (∀ (r : HttpResponse) (m : String), r.body = .throws m →
      responseOk r.status = false →
      attemptAuthRequest (.resp r) =
        .err (.transport
          ("Server returned " ++ toString r.status ++ " with non-JSON body")) ∧
      isRetryable (.transport
          ("Server returned " ++ toString r.status ++ " with non-JSON body")) =
        true) ∧
    (∀ (env : Nat → FetchOutcome) (N : Nat), 1 ≤ N →
      ∀ (r : HttpResponse) (m : String), env 1 = .resp r →
        r.body = .throws m → responseOk r.status = true →
        startAuthFlow env N =
          ⟨1, [], .thrown ("Protocol violation: " ++ ("Response is not valid JSON: " ++ m))⟩) := by
  refine ⟨?_, ?_, ?_⟩
  · intro r m hbody hok
    rw [attemptAuthRequest]
    simp [hbody, hok, isRetryable]
  · intro r m hbody hok
    rw [attemptAuthRequest]
    simp [hbody, hok, isRetryable]
  · intro env N hN r m henv hbody hok
    obtain ⟨f, rfl⟩ : ∃ f, N = f + 1 := ⟨N - 1, by omega⟩
    have hatt : attemptAuthRequest (env 1) =
        .err (.protocol_violation ("Response is not valid JSON: " ++ m)) := by
      rw [henv, attemptAuthRequest]
      simp [hbody, hok]
    simp [startAuthFlow, authGo, hatt, isRetryable]

theorem attemptAuth_nonJson_classification_witness :
    startAuthFlow (fun _ => .resp ⟨200, .throws "Unexpected token <"⟩) 3 =
      ⟨1, [],
        .thrown ("Protocol violation: " ++
          ("Response is not valid JSON: " ++ "Unexpected token <"))⟩ ∧
    attemptAuthRequest (.resp ⟨502, .throws "Unexpected token <"⟩) =
      .err (.transport "Server returned 502 with non-JSON body") :=
  ⟨attemptAuth_nonJson_classification.2.2 _ 3 (by norm_num) _ "Unexpected token <"
      rfl rfl rfl,
    (attemptAuth_nonJson_classification.2.1 ⟨502, .throws "Unexpected token <"⟩
      "Unexpected token <" rfl rfl).1⟩

theorem Json.getField_ne_null {j : Json} {k : String} {v : Json}
    (h : j.getField k = some v) : j.isNull = false := by
  cases j <;> simp [Json.getField, Json.isNull] at h ⊢

theorem poll_verified_without_token (cfg : PollConfig) (i c : Nat)
    (warned prevPending : Bool) (fuel : Nat) (r : HttpResponse) (j : Json)
    (henv : cfg.env i = .resp r) (hok : responseOk r.status = true)
    (hbody : r.body = .parses j)
    (hstatus : j.getField "status" = some (.str "verified"))
    (htoken : j.getField "token" = none)
    (htime : cfg.now (i + 1) - cfg.now 0 < cfg.pollTimeoutMs) :
    pollGo cfg i c warned prevPending (fuel + 1) =
      ⟨1, if warned then [PollEvent.restored] else [],
        .thrown "No token returned after verification"⟩ := by
  have hnn : j.isNull = false := Json.getField_ne_null hstatus
  have hatt : attemptPoll (cfg.env i) =
      .result (.invariant_violation "No token returned after verification") := by
    rw [henv, attemptPoll]
    simp [hbody, hok, hnn, statusIs, hstatus, htoken]
  simp [pollGo, htime, hatt, isTransientFailure]

theorem poll_verified_without_token_witness :
    pollGo
      ⟨fun _ => .resp ⟨200, .parses (.obj [("status", .str "verified")])⟩,
        fun _ => 0, 3000, 600000⟩ 0 0 false false 1 =
      ⟨1, [], .thrown "No token returned after verification"⟩ :=
  poll_verified_without_token _ 0 0 false false 0 _ _ rfl rfl rfl rfl rfl
    (by norm_num)

theorem pollGo_transient_step (cfg : PollConfig) (i c : Nat) (warned pv : Bool)
    (fuel : Nat) (p : PollResult)
    (hp : attemptPoll (cfg.env i) = .result p)
    (htr : isTransientFailure p = true)
    (ht : cfg.now (i + 1) - cfg.now 0 < cfg.pollTimeoutMs) :
    pollGo cfg i c warned pv (fuel + 1) =
      ⟨(pollGo cfg (i + 1) (c + 1) (warned || (decide (3 ≤ c + 1) && !warned))
          pv fuel).fetchCount + 1,
        (if decide (3 ≤ c + 1) && !warned then
            [PollEvent.warned (getTransientErrorMessage p),
              .slept cfg.pollIntervalMs]
          else [PollEvent.slept cfg.pollIntervalMs]) ++
          (pollGo cfg (i + 1) (c + 1) (warned || (decide (3 ≤ c + 1) && !warned))
            pv fuel).events,
        (pollGo cfg (i + 1) (c + 1) (warned || (decide (3 ≤ c + 1) && !warned))
          pv fuel).outcome⟩ := by
  simp [pollGo, ht, hp, htr]

theorem pollGo_transient_warned (cfg : PollConfig) :
    ∀ (k i c : Nat) (pv : Bool) (fuel : Nat),
      (∀ j, j < k → ∃ p, attemptPoll (cfg.env (i + j)) = .result p ∧
        isTransientFailure p = true) →
      (∀ j, j < k → cfg.now (i + j + 1) - cfg.now 0 < cfg.pollTimeoutMs) →
      pollGo cfg i c true pv (k + fuel) =
        ⟨k + (pollGo cfg (i + k) (c + k) true pv fuel).fetchCount,
          List.replicate k (PollEvent.slept cfg.pollIntervalMs) ++
            (pollGo cfg (i + k) (c + k) true pv fuel).events,
          (pollGo cfg (i + k) (c + k) true pv fuel).outcome⟩ := by
  intro k
  induction k with
  | zero => intro i c pv fuel _ _; simp
  | succ k ih =>
    intro i c pv fuel hfail htime
    obtain ⟨p, hp, htr⟩ := hfail 0 (by omega)
    rw [Nat.add_zero] at hp
    have ht : cfg.now (i + 1) - cfg.now 0 < cfg.pollTimeoutMs := by
      have := htime 0 (by omega)
      rwa [Nat.add_zero] at this
    have hrec := ih (i + 1) (c + 1) pv fuel
      (fun j hj => by
        have h := hfail (j + 1) (by omega)
        rwa [show i + (j + 1) = i + 1 + j by omega] at h)
      (fun j hj => by
        have h := htime (j + 1) (by omega)
        rwa [show i + (j + 1) + 1 = i + 1 + j + 1 by omega] at h)
    have hfuel : k + 1 + fuel = (k + fuel) + 1 := by omega
    rw [hfuel, pollGo_transient_step cfg i c true pv (k + fuel) p hp htr ht]
    rw [show i + 1 + k = i + (k + 1) by omega, show c + 1 + k = c + (k + 1) by omega]
      at hrec
    simp [hrec, List.replicate_succ]
    omega

theorem countP_replicate_zero {α : Type} (p : α → Bool) (x : α)
    (h : p x = false) : ∀ n, (List.replicate n x).countP p = 0 := by
  intro n
  induction n with
  | zero => simp
  | succ n ih => simp [List.replicate_succ, List.countP_cons, h, ih]

theorem pollGo_failures_reset (cfg : PollConfig) (a m : Nat) (pv : Bool)
    (fuel : Nat) (pfail : Nat → PollResult)
    (hm : 3 ≤ m)
    (hfail : ∀ j, j < m → attemptPoll (cfg.env (a + j)) = .result (pfail j) ∧
      isTransientFailure (pfail j) = true)
    (htime : ∀ j, j < m → cfg.now (a + j + 1) - cfg.now 0 < cfg.pollTimeoutMs) :
    pollGo cfg a 0 false pv (m + fuel) =
      ⟨m + (pollGo cfg (a + m) m true pv fuel).fetchCount,
        pollFailEvents cfg.pollIntervalMs
            (getTransientErrorMessage (pfail 2)) m ++
          (pollGo cfg (a + m) m true pv fuel).events,
        (pollGo cfg (a + m) m true pv fuel).outcome⟩ := by
  obtain ⟨k, rfl⟩ : ∃ k, m = 3 + k := ⟨m - 3, by omega⟩
  have hp0 := (hfail 0 (by omega)).1
  have htr0 := (hfail 0 (by omega)).2
  rw [Nat.add_zero] at hp0
  have hp1 := (hfail 1 (by omega)).1
  have htr1 := (hfail 1 (by omega)).2
  have hp2 := (hfail 2 (by omega)).1
  have htr2 := (hfail 2 (by omega)).2
  have ht0 : cfg.now (a + 1) - cfg.now 0 < cfg.pollTimeoutMs := by
    have := htime 0 (by omega)
    rwa [Nat.add_zero] at this
  have ht1 := htime 1 (by omega)
  have ht2 := htime 2 (by omega)
  have hfuel : 3 + k + fuel = ((k + fuel) + 1 + 1) + 1 := by omega
  rw [hfuel, pollGo_transient_step cfg a 0 false pv ((k + fuel) + 1 + 1)
    (pfail 0) hp0 htr0 ht0]
  rw [pollGo_transient_step cfg (a + 1) 1 _ pv ((k + fuel) + 1) (pfail 1)
    (by rwa [show a + 1 = a + 1 by rfl] at hp1) htr1
    (by rwa [show a + 1 + 1 = a + 1 + 1 by rfl] at ht1)]
  rw [pollGo_transient_step cfg (a + 1 + 1) 2 _ pv (k + fuel) (pfail 2)
    (by rwa [show a + 2 = a + 1 + 1 by omega] at hp2) htr2
    (by rwa [show a + 2 + 1 = a + 1 + 1 + 1 by omega] at ht2)]
  have hwarn := pollGo_transient_warned cfg k (a + 1 + 1 + 1) 3 pv fuel
    (fun j hj => by
      obtain ⟨h1, h2⟩ := hfail (3 + j) (by omega)
      exact ⟨pfail (3 + j),
        by rwa [show a + (3 + j) = a + 1 + 1 + 1 + j by omega] at h1, h2⟩)
    (fun j hj => by
      have h := htime (3 + j) (by omega)
      rwa [show a + (3 + j) + 1 = a + 1 + 1 + 1 + j + 1 by omega] at h)
  norm_num
  rw [show a + 1 + 1 + 1 + k = a + (3 + k) by omega] at hwarn
  rw [hwarn]
  simp [pollFailEvents, show (3 : Nat) + k - 3 = k by omega]
  omega

theorem poll_instability_oneshot (cfg : PollConfig) (a m fuel : Nat)
    (pv : Bool) (pfail : Nat → PollResult) (psucc : PollResult)
    (hm : 3 ≤ m)
    (hfail : ∀ j, j < m → attemptPoll (cfg.env (a + j)) = .result (pfail j) ∧
      isTransientFailure (pfail j) = true)
    (hsucc : attemptPoll (cfg.env (a + m)) = .result psucc)
    (hns : isTransientFailure psucc = false)
    (htime : ∀ j, j ≤ m → cfg.now (a + j + 1) - cfg.now 0 < cfg.pollTimeoutMs) :
    countWarned (pollFailEvents cfg.pollIntervalMs
        (getTransientErrorMessage (pfail 2)) m ++ [PollEvent.restored]) = 1 ∧
    countRestored (pollFailEvents cfg.pollIntervalMs
        (getTransientErrorMessage (pfail 2)) m ++ [PollEvent.restored]) = 1 ∧
    (∀ t, psucc = .verified t →
      pollGo cfg a 0 false pv (m + 1 + fuel) =
        ⟨m + 1,
          pollFailEvents cfg.pollIntervalMs
              (getTransientErrorMessage (pfail 2)) m ++
            [PollEvent.restored] ++ (if pv then [PollEvent.finalizing] else []),
          .returned t⟩) ∧
    (psucc = .expired →
      pollGo cfg a 0 false pv (m + 1 + fuel) =
        ⟨m + 1,
          pollFailEvents cfg.pollIntervalMs
              (getTransientErrorMessage (pfail 2)) m ++ [PollEvent.restored],
          .exited 1⟩) ∧
    (∀ msg, psucc = .invariant_violation msg →
      pollGo cfg a 0 false pv (m + 1 + fuel) =
        ⟨m + 1,
          pollFailEvents cfg.pollIntervalMs
              (getTransientErrorMessage (pfail 2)) m ++ [PollEvent.restored],
          .thrown msg⟩) ∧
    (psucc = .pending →
      pollGo cfg a 0 false pv (m + 1 + fuel) =
        ⟨m + 1 + (pollGo cfg (a + m + 1) 0 false true fuel).fetchCount,
          pollFailEvents cfg.pollIntervalMs
              (getTransientErrorMessage (pfail 2)) m ++
            (PollEvent.restored :: PollEvent.dot ::
              PollEvent.slept cfg.pollIntervalMs ::
              (pollGo cfg (a + m + 1) 0 false true fuel).events),
          (pollGo cfg (a + m + 1) 0 false true fuel).outcome⟩) := by
  have hrepl : ∀ n, (List.replicate n (PollEvent.slept cfg.pollIntervalMs)).countP
      (fun e => match e with | PollEvent.warned _ => true | _ => false) = 0 :=
    countP_replicate_zero _ _ rfl
  have hrepl2 : ∀ n, (List.replicate n (PollEvent.slept cfg.pollIntervalMs)).countP
      (fun e => match e with | PollEvent.restored => true | _ => false) = 0 :=
    countP_replicate_zero _ _ rfl
  refine ⟨?_, ?_, ?_, ?_, ?_, ?_⟩
  case _ =>
    simp [countWarned, pollFailEvents, List.countP_append, List.countP_cons, hrepl]
  case _ =>
    simp [countRestored, pollFailEvents, List.countP_append, List.countP_cons, hrepl2]
  all_goals {
    first
    | intro t heq
    | intro heq
    subst heq
    have hbase := pollGo_failures_reset cfg a m pv (1 + fuel) pfail hm hfail
      (fun j hj => htime j (by omega))
    rw [show m + 1 + fuel = m + (1 + fuel) by omega, hbase]
    have hstep : pollGo cfg (a + m) m true pv (1 + fuel) =
        pollGo cfg (a + m) m true pv (fuel + 1) := by
      rw [Nat.add_comm 1 fuel]
    rw [hstep]
    have ht := htime m le_rfl
    simp [pollGo, ht, hsucc, hns, isTransientFailure]
    try omega
  }

theorem poll_instability_oneshot_witness :
    pollGo pollFlakyCfg 0 0 false false 4 =
      ⟨4, [PollEvent.slept 3000, .slept 3000,
        .warned "Network unstable — retrying...", .slept 3000, .restored, .dot,
        .slept 3000], .outOfFuel⟩ ∧
    countWarned (pollFailEvents 3000 "Network unstable — retrying..." 3 ++
      [PollEvent.restored]) = 1 := by
  have h := poll_instability_oneshot pollFlakyCfg 0 3 0 false
    (fun _ => .boundary_error (.network "ECONNRESET")) .pending (by norm_num)
    (fun j hj => by
      match j, hj with
      | 0, _ => exact ⟨rfl, rfl⟩
      | 1, _ => exact ⟨rfl, rfl⟩
      | 2, _ => exact ⟨rfl, rfl⟩)
    rfl rfl (fun j hj => by norm_num [pollFlakyCfg])
  exact ⟨h.2.2.2.2.2 rfl, h.1⟩

theorem downloadInstaller_empty_header_cex :
    downloadInstaller
        (fun _ => "e3b0c44298fc1c149afbf4c8996fb92427ae41e4649b934ca495991b78")
        ⟨"/tmp", 123, .ok (), .ok (), .ok ()⟩
        (.resp ⟨200, some "", some "1.0.0", .parses .null, .ok []⟩) =
      ([], .boundary_error (.parse "Missing checksum header")) ∧
    (downloadInstaller
        (fun _ => "e3b0c44298fc1c149afbf4c8996fb92427ae41e4649b934ca495991b78")
        ⟨"/tmp", 123, .ok (), .ok (), .ok ()⟩
        (.resp ⟨200, some "", some "1.0.0", .parses .null,
          .ok []⟩)).2.isChecksumMismatch = false := by
  exact ⟨rfl, rfl⟩

theorem downloadInstaller_checksum_mismatch_blocks
    (sha256Hex : List Nat → String) (fs : DlFsEnv) (r : DlResponse)
    (hok : responseOk r.status = true) (ec : String)
    (hcs : r.checksumHeader = some ec) (hne : ec ≠ "")
    (bs : List Nat) (hbytes : r.bodyBytes = .ok bs)
    (hdiff : sha256Hex bs ≠ ec) :
    downloadInstaller sha256Hex fs (.resp r) =
      ([], .checksum_mismatch ec (sha256Hex bs)) := by
  rw [downloadInstaller]
  simp [hok, hcs, hbytes, hne, hdiff]

theorem downloadInstaller_checksum_mismatch_blocks_witness :
    downloadInstaller (fun _ => "aa") ⟨"/tmp", 123, .ok (), .ok (), .ok ()⟩
        (.resp ⟨200, some "bb", some "1.0.0", .parses .null, .ok [1, 2]⟩) =
      ([], .checksum_mismatch "bb" "aa") :=
  downloadInstaller_checksum_mismatch_blocks (fun _ => "aa")
    ⟨"/tmp", 123, .ok (), .ok (), .ok ()⟩
    ⟨200, some "bb", some "1.0.0", .parses .null, .ok [1, 2]⟩ rfl "bb" rfl
    (by decide) [1, 2] rfl (by decide)

theorem downloadInstaller_404_nonjson_cex :
    downloadInstaller (fun _ => "aa") ⟨"/tmp", 123, .ok (), .ok (), .ok ()⟩
        (.resp ⟨404, none, none, .throws "Unexpected token <", .ok []⟩) =
      ([], .auth_error (.str "Server error: 404")) ∧
    (downloadInstaller (fun _ => "aa") ⟨"/tmp", 123, .ok (), .ok (), .ok ()⟩
        (.resp ⟨404, none, none, .throws "Unexpected token <",
          .ok []⟩)).2.isNotFoundResult = false := by
  exact ⟨rfl, rfl⟩

theorem downloadInstaller_404_classification :
    (∀ (sha256Hex : List Nat → String) (fs : DlFsEnv) (r : DlResponse)
      (j : Json), r.status = 404 → r.jsonBody = .parses j →
      j.isNull = false →
      downloadInstaller sha256Hex fs (.resp r) =
        ([], .not_found
          (jsNullish (j.getField "error") (.str "No installer package available")))) ∧
    (∀ (sha256Hex : List Nat → String) (fs : DlFsEnv) (r : DlResponse)
      (m : String), r.status = 404 → r.jsonBody = .throws m →
      downloadInstaller sha256Hex fs (.resp r) =
        ([], .auth_error (.str "Server error: 404"))) ∧
    (∀ (sha256Hex : List Nat → String) (fs : DlFsEnv) (r : DlResponse),
      r.status = 404 → r.jsonBody = .parses .null →
      downloadInstaller sha256Hex fs (.resp r) =
        ([], .auth_error (.str "Server error: 404"))) := by
  refine ⟨?_, ?_, ?_⟩
  · intro sha256Hex fs r j hst hbody hnn
    rw [downloadInstaller]
    simp [hst, hbody, hnn, responseOk]
  · intro sha256Hex fs r m hst hbody
    rw [downloadInstaller]
    simp [hst, hbody, responseOk]
    rfl
  · intro sha256Hex fs r hst hbody
    rw [downloadInstaller]
    simp [hst, hbody, responseOk, Json.isNull]
    rfl

theorem downloadInstaller_404_classification_witness :
    downloadInstaller (fun _ => "aa") ⟨"/tmp", 123, .ok (), .ok (), .ok ()⟩
        (.resp ⟨404, none, none, .parses (.obj [("error", .str "gone")]),
          .ok []⟩) =
      ([], .not_found (.str "gone")) := by
  have h := downloadInstaller_404_classification.1 (fun _ => "aa")
    ⟨"/tmp", 123, .ok (), .ok (), .ok ()⟩
    ⟨404, none, none, .parses (.obj [("error", .str "gone")]), .ok []⟩
    (.obj [("error", .str "gone")]) rfl rfl rfl
  exact h

theorem downloadInstaller_missing_version_unknown
    (sha256Hex : List Nat → String) (fs : DlFsEnv) (r : DlResponse)
    (hok : responseOk r.status = true) (ec : String)
    (hcs : r.checksumHeader = some ec) (hne : ec ≠ "")
    (hver : r.versionHeader = none)
    (bs : List Nat) (hbytes : r.bodyBytes = .ok bs)
    (hmatch : sha256Hex bs = ec)
    (hmk : fs.mkdirResult = .ok ())
    (hwf : fs.writeFileResult = .ok ())
    (hex : fs.extractResult = .ok ()) :
    downloadInstaller sha256Hex fs (.resp r) =
      ([.mkdirRec (scratchDir fs), .wroteFile (scratchDir fs ++ "/package.tgz"),
        .extracted (scratchDir fs ++ "/package.tgz") (scratchDir fs)],
        .success (scratchDir fs ++ "/package") "unknown") := by
  rw [downloadInstaller]
  simp [hok, hcs, hbytes, hne, hmatch, hver, hmk, hwf, hex]

theorem downloadInstaller_missing_version_unknown_witness :
    downloadInstaller (fun _ => "aa") ⟨"/tmp", 7, .ok (), .ok (), .ok ()⟩
        (.resp ⟨200, some "aa", none, .parses .null, .ok [1]⟩) =
      ([.mkdirRec "/tmp/launchfast-installer-7",
        .wroteFile "/tmp/launchfast-installer-7/package.tgz",
        .extracted "/tmp/launchfast-installer-7/package.tgz"
          "/tmp/launchfast-installer-7"],
        .success "/tmp/launchfast-installer-7/package" "unknown") := by
  have h := downloadInstaller_missing_version_unknown (fun _ => "aa")
    ⟨"/tmp", 7, .ok (), .ok (), .ok ()⟩
    ⟨200, some "aa", none, .parses .null, .ok [1]⟩ rfl "aa" rfl (by decide)
    rfl [1] rfl rfl rfl rfl rfl
  exact h

theorem cleanupInstaller_spec :
    (∀ rm, cleanupInstaller "" rm = []) ∧
    (∀ p rm, strIncludes p "launchfast-installer-" = false →
      cleanupInstaller p rm = []) ∧
    (∀ p rm, p ≠ "" → strIncludes p "launchfast-installer-" = true →
      cleanupInstaller p rm = [.removedDir (joinWithParent p)]) ∧
    (∀ p rm1 rm2, cleanupInstaller p rm1 = cleanupInstaller p rm2) ∧
    joinWithParent "/tmp/launchfast-installer-123/package" =
      "/tmp/launchfast-installer-123" := by
  refine ⟨?_, ?_, ?_, ?_, rfl⟩
  · intro rm
    simp [cleanupInstaller]
  · intro p rm h
    by_cases hp : p = ""
    · simp [cleanupInstaller, hp]
    · simp [cleanupInstaller, hp, h]
  · intro p rm hp h
    cases rm with
    | ok u => simp [cleanupInstaller, hp, h]
    | error m => simp [cleanupInstaller, hp, h]
  · intro p rm1 rm2
    cases rm1 <;> cases rm2 <;> rfl

theorem cleanupInstaller_spec_witness :
    cleanupInstaller "/tmp/launchfast-installer-123/package"
        (.error "EACCES") =
      [.removedDir "/tmp/launchfast-installer-123"] := by
  have h := cleanupInstaller_spec
  have h3 := h.2.2.1 "/tmp/launchfast-installer-123/package" (.error "EACCES")
    (by decide) (by rfl)
  rw [h3, h.2.2.2.2]

theorem jsSetKey_lookup_other (key value k : String) (h : k ≠ key) :
    ∀ entries : List (String × String),
      (jsSetKey entries key value).lookup k = entries.lookup k := by
  have hbeq : (k == key) = false := beq_eq_false_iff_ne.mpr h
  intro entries
  induction entries with
  | nil => simp [jsSetKey, List.lookup, hbeq]
  | cons e rest ih =>
    obtain ⟨k1, v1⟩ := e
    by_cases hk : k1 = key
    · subst hk
      simp [jsSetKey, List.lookup, hbeq]
    · simp [jsSetKey, hk, List.lookup, ih]

theorem jsSetKey_lookup_self (key value : String) :
    ∀ entries : List (String × String),
      (jsSetKey entries key value).lookup key = some value := by
  intro entries
  induction entries with
  | nil => simp [jsSetKey, List.lookup]
  | cons e rest ih =>
    obtain ⟨k1, v1⟩ := e
    by_cases hk : k1 = key
    · subst hk
      simp [jsSetKey, List.lookup]
    · have hbeq : (key == k1) = false := beq_eq_false_iff_ne.mpr (Ne.symm hk)
      simp [jsSetKey, hk, List.lookup, ih, hbeq]

theorem writeNpmToken_frame (token : String)
    (entries : List (String × String)) :
    (writeNpmToken token (.found entries)).writes =
      [jsSetKey entries authTokenKey token] ∧
    (∀ k, k ≠ authTokenKey →
      (jsSetKey entries authTokenKey token).lookup k = entries.lookup k) ∧
    (jsSetKey entries authTokenKey token).lookup authTokenKey = some token := by
  refine ⟨rfl, ?_, jsSetKey_lookup_self _ _ entries⟩
  intro k hk
  exact jsSetKey_lookup_other _ _ _ hk entries

theorem writeNpmToken_frame_witness :
    (writeNpmToken "newTok"
        (.found [("registry", "https://example.test"),
          (authTokenKey, "oldTok")])).writes =
      [[("registry", "https://example.test"), (authTokenKey, "newTok")]] ∧
    (jsSetKey [("registry", "https://example.test"), (authTokenKey, "oldTok")]
        authTokenKey "newTok").lookup "registry" =
      some "https://example.test" := by
  have h := writeNpmToken_frame "newTok"
    [("registry", "https://example.test"), (authTokenKey, "oldTok")]
  refine ⟨?_, ?_⟩
  · rw [h.1]
    rfl
  · rw [h.2.1 "registry" (by decide)]
    rfl

end LaunchFast
